import Mathlib

/-!
Shallow embedding of `src/source/utils/TE_data_preprocessing.py`.

The script has three functions:
  * `read_dat_files` — scan a directory, parse every `*.dat` file with
    `pd.read_csv(..., sep='\s+', header=None)`, rename columns to
    `var1..varN`, collect the frames in a dict, and skip (with a printed
    message) any file whose read or parse raises;
  * `preview_data` — print shape / column names / head of one frame;
  * `plot_data` — validate the arguments, clean a copy of the frame
    (ffill, bfill, clip at mean ± 3·std per column) and draw a line chart,
    with a top-level `except` that prints the error and closes the figure.

Modelling choices, faithful to pandas semantics:
  * a DataFrame is column-major: a list of (name, column), a column is a
    list of `Option ℝ` (`none` = NaN cell);
  * `Series.mean` / `Series.std` skip NaN cells; `std` uses ddof = 1 and is
    NaN when fewer than 2 valid values remain; arithmetic on a NaN scalar
    propagates NaN, so the clip thresholds are `Option ℝ` and `Series.clip`
    ignores a NaN threshold;
  * `pd.read_csv` on content with no parseable tokens raises
    `EmptyDataError("No columns to parse from file")`; blank lines are
    skipped; the column count is taken from the first row, later rows with
    more fields raise a parser error and shorter rows are padded with NaN;
  * a file is modelled as its whitespace-tokenised numeric lines
    (`List (List ℝ)`); directory listing as an association list.
-/

/-- A pandas DataFrame: ordered columns, each a name and a list of cells;
`none` represents a NaN cell. -/
structure Table where
  columns : List (String × List (Option ℝ))

namespace Table

/-- Number of rows (`df.shape[0]`): length of the first column, 0 if there
are no columns. -/
def nrows (t : Table) : Nat :=
  match t.columns with
  | [] => 0
  | c :: _ => c.2.length

/-- Number of columns (`df.shape[1]`). -/
def ncols (t : Table) : Nat := t.columns.length

/-- Column names, in order (`df.columns`). -/
def names (t : Table) : List String := t.columns.map Prod.fst

/-- `df.empty`: true when either axis has length 0. -/
def emptyB (t : Table) : Bool := t.columns.isEmpty || t.nrows == 0

end Table

/-- Column layout `pd.read_csv` + the renaming loop produce for tokenised
rows: `W` columns named `var1..varW`, column `i` holding each row's `i`-th
field, `none` (NaN) when the row is shorter. -/
def mkCols (W : Nat) (rows : List (List ℝ)) : List (String × List (Option ℝ)) :=
  (List.range W).map (fun i => ("var" ++ toString (i + 1), rows.map (fun r => r[i]?)))

/-- `pd.read_csv(io.StringIO(content), sep='\s+', header=None)` followed by
`df.columns = [f'var{i+1}' ...]`, on the whitespace-tokenised lines of the
file. Blank lines are skipped; no parseable row raises `EmptyDataError`;
the width is fixed by the first row and a longer later row raises a parser
error; shorter rows are padded with NaN. -/
def parseDat (lines : List (List ℝ)) : Except String Table :=
  let rows := lines.filter (fun r => !r.isEmpty)
  match rows with
  | [] => .error "No columns to parse from file"
  | r0 :: _ =>
    if rows.any (fun r => r0.length < r.length) then
      .error "Error tokenizing data"
    else
      .ok ⟨mkCols r0.length rows⟩

/-- Python's `str.endswith`, on the character sequences. -/
def strEndsWith (s suffix : String) : Bool :=
  suffix.data.isSuffixOf s.data

/-- `read_dat_files`: walk the directory listing in order; for each name
ending in `.dat`, parse the file; on success store the frame under the file
name, on an exception print `无法读取文件 …` and continue. Returns the
dict (as an association list in insertion order) together with the printed
messages. -/
def readDatFiles : List (String × List (List ℝ)) → List (String × Table) × List String
  | [] => ([], [])
  | (name, content) :: rest =>
    if strEndsWith name ".dat" then
      match parseDat content with
      | .ok t =>
        let r := readDatFiles rest
        ((name, t) :: r.1, r.2)
      | .error e =>
        let r := readDatFiles rest
        (r.1, ("无法读取文件 " ++ name ++ "，错误：" ++ e) :: r.2)
    else
      readDatFiles rest

/-- Python dict lookup on the association list. -/
def lookupD {α : Type} (d : List (String × α)) (k : String) : Option α :=
  (d.find? (fun p => p.1 == k)).map Prod.snd

/-! ## The cleaning step of `plot_data`

`df_clean = df_clean.fillna(method='ffill').fillna(method='bfill')`, then
per column `df_clean[col] = df_clean[col].clip(mean - 3*std, mean + 3*std)`
with `mean`/`std` computed on the filled column. -/

/-- Forward fill, carrying the last valid value; leading NaNs are left in
place while `last` is `none`. -/
def ffillGo : Option ℝ → List (Option ℝ) → List (Option ℝ)
  | _, [] => []
  | last, none :: rest => last :: ffillGo last rest
  | _, some x :: rest => some x :: ffillGo (some x) rest

/-- `Series.fillna(method='ffill')`. -/
def ffillCol (c : List (Option ℝ)) : List (Option ℝ) := ffillGo none c

/-- `Series.fillna(method='bfill')`: forward fill on the reversed column. -/
def bfillCol (c : List (Option ℝ)) : List (Option ℝ) := (ffillCol c.reverse).reverse

/-- The missing-value step of the cleaning: ffill then bfill. -/
def fillCol (c : List (Option ℝ)) : List (Option ℝ) := bfillCol (ffillCol c)

/-- The valid (non-NaN) values of a column, in order; pandas reductions
skip NaN cells. -/
def colVals (c : List (Option ℝ)) : List ℝ := c.filterMap id

/-- `Series.mean()`: mean of the valid values, NaN when there are none. -/
noncomputable def colMean (c : List (Option ℝ)) : Option ℝ :=
  let v := colVals c
  if v.length = 0 then none else some (v.sum / v.length)

/-- `Series.std()` (ddof = 1): sample standard deviation of the valid
values, NaN when fewer than 2 remain. -/
noncomputable def colStd (c : List (Option ℝ)) : Option ℝ :=
  let v := colVals c
  if v.length < 2 then none
  else
    match colMean c with
    | none => none
    | some m => some (Real.sqrt ((v.map (fun x => (x - m) ^ 2)).sum / (v.length - 1)))

/-- The clip thresholds `mean - 3*std` and `mean + 3*std` as Python
computes them: NaN (here `none`) as soon as `mean` or `std` is NaN. -/
noncomputable def bound3 (c : List (Option ℝ)) : Option ℝ × Option ℝ :=
  match colMean c, colStd c with
  | some m, some s => (some (m - 3 * s), some (m + 3 * s))
  | _, _ => (none, none)

/-- `Series.clip(lower, upper)` on one cell: the lower bound is applied,
then the upper; a NaN threshold is ignored and a NaN cell stays NaN. -/
def clipVal (lo hi : Option ℝ) (x : ℝ) : ℝ :=
  let x1 := match lo with
    | some l => max l x
    | none => x
  match hi with
  | some h => min h x1
  | none => x1

/-- One iteration of the outlier loop on a (filled) column:
`col.clip(mean - 3*std, mean + 3*std)`. -/
noncomputable def colClip (c : List (Option ℝ)) : List (Option ℝ) :=
  let b := bound3 c
  c.map (Option.map (clipVal b.1 b.2))

/-- One column after the whole cleaning: fill, then clip with bounds
computed on the filled data. -/
noncomputable def cleanCol (c : List (Option ℝ)) : List (Option ℝ) :=
  colClip (fillCol c)

/-- The whole cleaning on a copy of the frame: both `fillna` calls, then
the per-column clipping loop over `df_clean.columns`. -/
noncomputable def cleanTable (t : Table) : Table :=
  ⟨t.columns.map (fun nc => (nc.1, cleanCol nc.2))⟩

/-! ## `plot_data` and `preview_data` -/

/-- A value stored in the dict: a DataFrame or anything else (the code
checks `isinstance(df, pd.DataFrame)`). -/
inductive Entry where
  | table (t : Table)
  | nonTable

/-- The `data_dict` argument: a dict or anything else (the code checks
`isinstance(data_dict, dict)`). -/
inductive DictArg where
  | dict (d : List (String × Entry))
  | nonDict

/-- The `filename` argument: a string or anything else (the code checks
`isinstance(filename, str)`). -/
inductive KeyArg where
  | str (s : String)
  | nonStr

/-- The `variables` argument: the default `None`, a list, a tuple, or any
other value, which the code wraps as `[variables]`; elements are column
names. -/
inductive VarsArg where
  | noneArg
  | listArg (vs : List String)
  | tupleArg (vs : List String)
  | scalarArg (v : String)

/-- The exceptions the plot body raises. `str(e)` quotes the argument of a
`KeyError` (Python prints its `repr`), and is the plain message for a
`ValueError`. -/
inductive PyExn where
  | valueError (s : String)
  | keyError (s : String)
  | attributeError

/-- `str(e)` as interpolated into the top-level error print. -/
def exnStr : PyExn → String
  | .valueError s => s
  | .keyError s => "'" ++ s ++ "'"
  | .attributeError => "AttributeError"

/-- The figure `plot_data` shows: its size, one series per plotted column
(in plot order, with the cleaned values), and the title. -/
structure Chart where
  size : ℝ × ℝ
  series : List (String × List (Option ℝ))
  title : String

/-- The caller-observable outcome of one `plot_data` call: the lines
printed to stdout, and the chart passed to `plt.show()`, if any. -/
structure PlotResult where
  messages : List String
  shown : Option Chart

/-- The `variables` normalisation: `None` becomes all column names, a
list/tuple is used as is, anything else is wrapped as `[variables]`. -/
def normalizeVars (v : VarsArg) (cols : List String) : List String :=
  match v with
  | .noneArg => cols
  | .listArg l => l
  | .tupleArg l => l
  | .scalarArg s => [s]

/-- `var in df.columns`. -/
def Table.hasCol (t : Table) (v : String) : Bool := t.names.contains v

/-- `df[var]` for a name known to be present (first matching column;
defaults to an empty column, unreachable when `hasCol` holds). -/
def Table.col (t : Table) (v : String) : List (Option ℝ) :=
  (lookupD t.columns v).getD []

/-- The `try` body of `plot_data`: the printed lines so far and either the
finished chart or the exception that aborted it. Validation of the dict,
key and entry, then cleaning, then the plotting loop, whose membership
tests and series read the cleaned frame; the warning prints happen in loop
order before the `valid_vars` check raises. -/
noncomputable def plotBody (dataDict : DictArg) (filename : KeyArg)
    (varsA : VarsArg) (figsize : ℝ × ℝ) :
    List String × Except PyExn Chart :=
  match dataDict with
  | .nonDict => ([], .error (.valueError "data_dict必须是字典类型"))
  | .dict d =>
    match filename with
    | .nonStr => ([], .error (.valueError "filename必须是字符串类型"))
    | .str k =>
      match lookupD d k with
      | none => ([], .error (.keyError ("错误：找不到文件 " ++ k)))
      | some .nonTable =>
        ([], .error (.valueError ("文件 " ++ k ++ " 的数据不是DataFrame类型")))
      | some (.table df) =>
        if df.emptyB then
          ([], .error (.valueError ("文件 " ++ k ++ " 的数据为空")))
        else
          let dfClean := cleanTable df
          let vs := normalizeVars varsA dfClean.names
          let warns := (vs.filter (fun v => !dfClean.hasCol v)).map
            (fun v => "警告：变量 " ++ v ++ " 不存在于数据中")
          let validVars := vs.filter (fun v => dfClean.hasCol v)
          if validVars.isEmpty then
            (warns, .error (.valueError "没有有效的变量可以绘制"))
          else
            (warns, .ok { size := figsize,
                          series := validVars.map (fun v => (v, dfClean.col v)),
                          title := "数据可视化 - " ++ k })

/-- `plot_data`: the body wrapped in the top-level `except`, which prints
`绘图过程中出现错误：{str(e)}` and closes the figure, so a failed call
shows nothing. The function is total: no exception reaches the caller. -/
noncomputable def plotData (dataDict : DictArg) (filename : KeyArg)
    (varsA : VarsArg) (figsize : ℝ × ℝ) : PlotResult :=
  match plotBody dataDict filename varsA figsize with
  | (msgs, .ok c) => { messages := msgs, shown := some c }
  | (msgs, .error e) =>
    { messages := msgs ++ ["绘图过程中出现错误：" ++ exnStr e], shown := none }

/-- Modelled from the spec: the plotter contract of §4.3 with its three
validation steps performed in the stated order, all before the cleaning
step runs — step 3 filters the requested names against the raw table and
aborts before drawing when none is valid; only then is the copy cleaned
and the chart built. -/
noncomputable def plotBodySpecOrder (dataDict : DictArg) (filename : KeyArg)
    (varsA : VarsArg) (figsize : ℝ × ℝ) :
    List String × Except PyExn Chart :=
  match dataDict with
  | .nonDict => ([], .error (.valueError "data_dict必须是字典类型"))
  | .dict d =>
    match filename with
    | .nonStr => ([], .error (.valueError "filename必须是字符串类型"))
    | .str k =>
      match lookupD d k with
      | none => ([], .error (.keyError ("错误：找不到文件 " ++ k)))
      | some .nonTable =>
        ([], .error (.valueError ("文件 " ++ k ++ " 的数据不是DataFrame类型")))
      | some (.table df) =>
        if df.emptyB then
          ([], .error (.valueError ("文件 " ++ k ++ " 的数据为空")))
        else
          let vs := normalizeVars varsA df.names
          let warns := (vs.filter (fun v => !df.hasCol v)).map
            (fun v => "警告：变量 " ++ v ++ " 不存在于数据中")
          let validVars := vs.filter (fun v => df.hasCol v)
          if validVars.isEmpty then
            (warns, .error (.valueError "没有有效的变量可以绘制"))
          else
            let dfClean := cleanTable df
            (warns, .ok { size := figsize,
                          series := validVars.map (fun v => (v, dfClean.col v)),
                          title := "数据可视化 - " ++ k })

/-- Modelled from the spec: `plotBodySpecOrder` under the same top-level
catch as the code. -/
noncomputable def plotDataSpecOrder (dataDict : DictArg) (filename : KeyArg)
    (varsA : VarsArg) (figsize : ℝ × ℝ) : PlotResult :=
  match plotBodySpecOrder dataDict filename varsA figsize with
  | (msgs, .ok c) => { messages := msgs, shown := some c }
  | (msgs, .error e) =>
    { messages := msgs ++ ["绘图过程中出现错误：" ++ exnStr e], shown := none }

/-- One line of `preview_data`'s output, kept structural where the code
prints a rendered value. -/
inductive PrintItem where
  | msg (s : String)
  | header (filename : String)
  | shape (r c : Nat)
  | colNames (ns : List String)
  | headRows (cols : List (String × List (Option ℝ)))

/-- `preview_data`: on an absent key it prints `错误：找不到文件 …` and
returns; otherwise it prints the file name, `df.shape`, `list(df.columns)`
and `df.head(rows)`. It has no `try`, so `df.shape` on a non-DataFrame
value raises an `AttributeError` that propagates. -/
def previewData (dataDict : List (String × Entry)) (filename : String)
    (rows : Nat) : Except PyExn (List PrintItem) :=
  match lookupD dataDict filename with
  | none => .ok [.msg ("错误：找不到文件 " ++ filename)]
  | some .nonTable => .error .attributeError
  | some (.table df) =>
    .ok [ .header filename,
          .shape df.nrows df.ncols,
          .colNames df.names,
          .msg "\n数据预览:",
          .headRows (df.columns.map (fun nc => (nc.1, nc.2.take rows))) ]

/-! ## A store-explicit rendering of `plot_data`

To state that `plot_data` never mutates the stored DataFrame, object
identity is made explicit: frames live in a heap (a list of cells, an
address is an index), the dict maps names to addresses, `df.copy()`
allocates a fresh cell, each `fillna` returns a fresh cell the local name
is rebound to, and the clipping loop writes, column by column, to the cell
holding the copy. The two `isinstance` argument checks never touch the
heap and are elided here. -/

/-- A dict value in the heap model: the address of a DataFrame cell, or a
non-DataFrame value. -/
inductive HEntry where
  | ref (p : Nat)
  | nonTable

/-- Both `fillna` calls on a whole frame. -/
def fillTable (t : Table) : Table :=
  ⟨t.columns.map (fun nc => (nc.1, fillCol nc.2))⟩

/-- One iteration of the clipping loop: clip only the column named `c`. -/
noncomputable def clipOneCol (t : Table) (c : String) : Table :=
  ⟨t.columns.map (fun nc => if nc.1 == c then (nc.1, colClip nc.2) else nc)⟩

/-- The clipping loop as in-place writes: for each column name, read the
cell at `p`, clip that column, write the cell back. -/
noncomputable def clipLoopHeap (heap : List Table) (p : Nat)
    (cols : List String) : List Table :=
  cols.foldl (fun h c => h.set p (clipOneCol ((h[p]?).getD ⟨[]⟩) c)) heap

/-- `plot_data` with the store explicit, past the two argument checks:
returns the final heap and the observable result. All allocations append
to the heap; all writes go to the cell allocated for the filled copy. -/
noncomputable def plotDataHeap (heap : List Table)
    (dataDict : List (String × HEntry)) (filename : String)
    (varsA : VarsArg) (figsize : ℝ × ℝ) : List Table × PlotResult :=
  match lookupD dataDict filename with
  | none =>
    (heap, { messages := ["绘图过程中出现错误：" ++
               exnStr (.keyError ("错误：找不到文件 " ++ filename))],
             shown := none })
  | some .nonTable =>
    (heap, { messages := ["绘图过程中出现错误：" ++
               exnStr (.valueError ("文件 " ++ filename ++ " 的数据不是DataFrame类型"))],
             shown := none })
  | some (.ref p) =>
    let df := (heap[p]?).getD ⟨[]⟩
    if df.emptyB then
      (heap, { messages := ["绘图过程中出现错误：" ++
                 exnStr (.valueError ("文件 " ++ filename ++ " 的数据为空"))],
               shown := none })
    else
      let h1 := heap ++ [df]
      let h2 := h1 ++ [fillTable df]
      let p2 := h1.length
      let h3 := clipLoopHeap h2 p2 (fillTable df).names
      let dfClean := (h3[p2]?).getD ⟨[]⟩
      let vs := normalizeVars varsA dfClean.names
      let warns := (vs.filter (fun v => !dfClean.hasCol v)).map
        (fun v => "警告：变量 " ++ v ++ " 不存在于数据中")
      let validVars := vs.filter (fun v => dfClean.hasCol v)
      let res : PlotResult :=
        if validVars.isEmpty then
          { messages := warns ++
              ["绘图过程中出现错误：" ++ exnStr (.valueError "没有有效的变量可以绘制")],
            shown := none }
        else
          { messages := warns,
            shown := some { size := figsize,
                            series := validVars.map (fun v => (v, dfClean.col v)),
                            title := "数据可视化 - " ++ filename } }
      (h3, res)

/-! ## Theorems -/

/-- C8: Calling preview with a key absent from the collection prints the
error message `错误：找不到文件 …`, performs no further action (no other
output), and raises no exception past the call boundary (the result is
`.ok` with that single line). -/
theorem preview_absent_key (d : List (String × Entry)) (k : String) (rows : Nat)
    (h : lookupD d k = none) :
    previewData d k rows = .ok [.msg ("错误：找不到文件 " ++ k)] := by
  simp [previewData, h]

/-- Witness for C8 at the empty collection and key `d99.dat`. -/
theorem preview_absent_key_witness :
    previewData [] "d99.dat" 5 = .ok [.msg "错误：找不到文件 d99.dat"] :=
  preview_absent_key [] "d99.dat" 5 rfl

/-- C9: A `variables` argument that is neither a list nor a tuple (nor the
default `None`) is wrapped as `[variables]`, so passing a single column
name gives exactly the same observable outcome as passing the singleton
list of that name, whatever the other arguments are. -/
theorem plot_scalar_eq_singleton (dd : DictArg) (fn : KeyArg) (v : String)
    (fs : ℝ × ℝ) :
    plotData dd fn (.scalarArg v) fs = plotData dd fn (.listArg [v]) fs := by
  cases dd with
  | nonDict => rfl
  | dict d =>
    cases fn with
    | nonStr => rfl
    | str k =>
      rcases h : lookupD d k with _ | e
      · simp [plotData, plotBody, h]
      · cases e with
        | nonTable => simp [plotData, plotBody, h]
        | table t =>
          by_cases he : t.emptyB
          · simp [plotData, plotBody, h, he]
          · simp [plotData, plotBody, h, he, normalizeVars]

/-- C10: Plot with an explicitly empty list of variables on a valid
non-empty table prints warnings for no variable, reports the
no-valid-variables condition through the top-level catch, and shows no
chart; the call returns normally. -/
theorem plot_empty_var_list (d : List (String × Entry)) (k : String)
    (t : Table) (fs : ℝ × ℝ)
    (h : lookupD d k = some (.table t)) (he : t.emptyB = false) :
    plotData (.dict d) (.str k) (.listArg []) fs =
      ⟨["绘图过程中出现错误：没有有效的变量可以绘制"], none⟩ := by
  simp [plotData, plotBody, h, he, normalizeVars, exnStr, ← String.append_assoc]

/-- Witness for C10 on a one-column, one-row table stored under
`d11.dat`. -/
theorem plot_empty_var_list_witness :
    plotData (.dict [("d11.dat", .table ⟨[("var1", [some 1])]⟩)])
        (.str "d11.dat") (.listArg []) (12, 6) =
      ⟨["绘图过程中出现错误：没有有效的变量可以绘制"], none⟩ :=
  plot_empty_var_list [("d11.dat", .table ⟨[("var1", [some 1])]⟩)] "d11.dat"
    ⟨[("var1", [some 1])]⟩ (12, 6) rfl rfl

/-- C7: Plot on an absent key, on a non-DataFrame value, and on an empty
table each returns normally (no exception crosses the call boundary) with
no chart shown and a single reported message; the three messages are
pairwise distinct for every key. -/
theorem plot_three_distinct_failures :
    (∀ (d : List (String × Entry)) (k : String) (varsA : VarsArg) (fs : ℝ × ℝ),
      lookupD d k = none →
        plotData (.dict d) (.str k) varsA fs =
          ⟨["绘图过程中出现错误：'错误：找不到文件 " ++ k ++ "'"], none⟩) ∧
    (∀ (d : List (String × Entry)) (k : String) (varsA : VarsArg) (fs : ℝ × ℝ),
      lookupD d k = some .nonTable →
        plotData (.dict d) (.str k) varsA fs =
          ⟨["绘图过程中出现错误：文件 " ++ k ++ " 的数据不是DataFrame类型"], none⟩) ∧
    (∀ (d : List (String × Entry)) (k : String) (t : Table) (varsA : VarsArg)
        (fs : ℝ × ℝ),
      lookupD d k = some (.table t) → t.emptyB = true →
        plotData (.dict d) (.str k) varsA fs =
          ⟨["绘图过程中出现错误：文件 " ++ k ++ " 的数据为空"], none⟩) ∧
    (∀ k : String,
      ("绘图过程中出现错误：'错误：找不到文件 " ++ k ++ "'" ≠
        "绘图过程中出现错误：文件 " ++ k ++ " 的数据不是DataFrame类型") ∧
      ("绘图过程中出现错误：'错误：找不到文件 " ++ k ++ "'" ≠
        "绘图过程中出现错误：文件 " ++ k ++ " 的数据为空") ∧
      ("绘图过程中出现错误：文件 " ++ k ++ " 的数据不是DataFrame类型" ≠
        "绘图过程中出现错误：文件 " ++ k ++ " 的数据为空")) := by
  refine ⟨?_, ?_, ?_, ?_⟩
  · intro d k varsA fs h
    simp [plotData, plotBody, h, exnStr, ← String.append_assoc]
  · intro d k varsA fs h
    simp [plotData, plotBody, h, exnStr, ← String.append_assoc]
  · intro d k t varsA fs h he
    simp [plotData, plotBody, h, he, exnStr, ← String.append_assoc]
  · intro k
    have e1 : ("绘图过程中出现错误：'错误：找不到文件 ").length = 20 := by decide
    have e2 : ("'").length = 1 := by decide
    have e3 : ("绘图过程中出现错误：文件 ").length = 13 := by decide
    have e4 : (" 的数据不是DataFrame类型").length = 17 := by decide
    have e5 : (" 的数据为空").length = 6 := by decide
    refine ⟨fun h => ?_, fun h => ?_, fun h => ?_⟩ <;>
    · have hl := congrArg String.length h
      rw [String.length_append, String.length_append, String.length_append,
        String.length_append] at hl
      omega

/-- Witness for C7: the three failure cases at concrete inputs, and the
distinctness of the messages at key `d11.dat`. -/
theorem plot_three_distinct_failures_witness :
    (plotData (.dict [("b.dat", Entry.nonTable)]) (.str "a.dat") .noneArg (12, 6) =
      ⟨["绘图过程中出现错误：'错误：找不到文件 a.dat'"], none⟩) ∧
    (plotData (.dict [("b.dat", Entry.nonTable)]) (.str "b.dat") .noneArg (12, 6) =
      ⟨["绘图过程中出现错误：文件 b.dat 的数据不是DataFrame类型"], none⟩) ∧
    (plotData (.dict [("c.dat", Entry.table ⟨[]⟩)]) (.str "c.dat") .noneArg (12, 6) =
      ⟨["绘图过程中出现错误：文件 c.dat 的数据为空"], none⟩) ∧
    ("绘图过程中出现错误：'错误：找不到文件 d11.dat'" ≠
      "绘图过程中出现错误：文件 d11.dat 的数据不是DataFrame类型") :=
  ⟨plot_three_distinct_failures.1 [("b.dat", Entry.nonTable)] "a.dat" .noneArg (12, 6) rfl,
   plot_three_distinct_failures.2.1 [("b.dat", Entry.nonTable)] "b.dat" .noneArg (12, 6) rfl,
   plot_three_distinct_failures.2.2.1 [("c.dat", Entry.table ⟨[]⟩)] "c.dat" ⟨[]⟩ .noneArg
     (12, 6) rfl rfl,
   (plot_three_distinct_failures.2.2.2 "d11.dat").1⟩

/-- Helper: on a non-empty file whose rows all have the same positive
width `W`, the parse succeeds and yields the `mkCols W` layout. -/
lemma parseDat_wellformed (lines : List (List ℝ)) (W : Nat)
    (hne : lines ≠ []) (hW : ∀ r ∈ lines, r.length = W) (hpos : 0 < W) :
    parseDat lines = .ok ⟨mkCols W lines⟩ := by
  have hfil : lines.filter (fun r => !r.isEmpty) = lines := by
    apply List.filter_eq_self.mpr
    intro r hr
    have := hW r hr
    simp [List.isEmpty_iff]
    intro hnil
    rw [hnil] at this
    simp at this
    omega
  unfold parseDat
  rw [hfil]
  cases lines with
  | nil => exact absurd rfl hne
  | cons r0 rest =>
    have h0 : r0.length = W := hW r0 (List.mem_cons_self r0 rest)
    simp only [List.any_eq_true, decide_eq_true_eq]
    rw [if_neg, h0]
    push_neg
    intro r hr
    have := hW r hr
    omega

/-- C6: For a file of well-formed whitespace-separated numeric rows of
constant width `W`, the loader stores a table whose columns are exactly
`var1..varW` in positional order and whose every column has one cell per
input line; no error is reported. -/
theorem loader_wellformed_shape (name : String) (lines : List (List ℝ))
    (W : Nat) (hext : strEndsWith name ".dat" = true) (hne : lines ≠ [])
    (hW : ∀ r ∈ lines, r.length = W) (hpos : 0 < W) :
    readDatFiles [(name, lines)] = ([(name, ⟨mkCols W lines⟩)], []) ∧
    (mkCols W lines).map Prod.fst =
      (List.range W).map (fun i => "var" ++ toString (i + 1)) ∧
    (mkCols W lines).length = W ∧
    ∀ c ∈ mkCols W lines, c.2.length = lines.length := by
  have hparse := parseDat_wellformed lines W hne hW hpos
  refine ⟨?_, ?_, ?_, ?_⟩
  · simp [readDatFiles, hext, hparse]
  · simp [mkCols, List.map_map]
  · simp [mkCols]
  · intro c hc
    simp [mkCols] at hc
    obtain ⟨i, hi, rfl⟩ := hc
    simp

/-- Witness for C6: the spec's concrete scenario, `d11.dat` holding the
rows `1.0 2.0 3.0` and `4.0 5.0 6.0`. -/
theorem loader_wellformed_shape_witness :
    readDatFiles [("d11.dat", [[1, 2, 3], [4, 5, 6]])] =
      ([("d11.dat", ⟨mkCols 3 [[1, 2, 3], [4, 5, 6]]⟩)], []) ∧
    (mkCols 3 [[(1 : ℝ), 2, 3], [4, 5, 6]]).map Prod.fst =
      (List.range 3).map (fun i => "var" ++ toString (i + 1)) ∧
    (mkCols 3 [[(1 : ℝ), 2, 3], [4, 5, 6]]).length = 3 ∧
    ∀ c ∈ mkCols 3 [[(1 : ℝ), 2, 3], [4, 5, 6]],
      c.2.length = ([[(1 : ℝ), 2, 3], [4, 5, 6]]).length :=
  loader_wellformed_shape "d11.dat" [[1, 2, 3], [4, 5, 6]] 3 (by decide)
    (by simp)
    (by intro r hr; simp at hr; rcases hr with rfl | rfl <;> simp)
    (by decide)

/-- Counterexample for C2 as stated: an empty file named `a.dat` is not
loaded as a zero-row table — `pd.read_csv` raises `EmptyDataError`, the
file is skipped with a printed message, and no entry appears under its
name. -/
theorem empty_file_counterexample :
    readDatFiles [("a.dat", ([] : List (List ℝ)))] =
      ([], ["无法读取文件 a.dat，错误：No columns to parse from file"]) ∧
    lookupD (readDatFiles [("a.dat", ([] : List (List ℝ)))]).1 "a.dat" = none := by
  constructor
  · simp [readDatFiles, parseDat, strEndsWith]
  · rfl

/-- C2 (amended): an empty file whose name ends with `.dat` is reported
and skipped — it contributes a `无法读取文件` message and no table,
whatever the rest of the directory holds; and a directory with no matching
files yields an empty mapping and no messages. -/
theorem empty_file_skipped :
    (∀ (name : String) (rest : List (String × List (List ℝ))),
      strEndsWith name ".dat" = true →
        readDatFiles ((name, []) :: rest) =
          ((readDatFiles rest).1,
           ("无法读取文件 " ++ name ++ "，错误：No columns to parse from file") ::
             (readDatFiles rest).2)) ∧
    (∀ files : List (String × List (List ℝ)),
      (∀ f ∈ files, strEndsWith f.1 ".dat" = false) →
        readDatFiles files = ([], [])) := by
  constructor
  · intro name rest h
    simp [readDatFiles, h, parseDat, ← String.append_assoc]
    rw [String.append_assoc]
    rfl
  · intro files h
    induction files with
    | nil => rfl
    | cons f rest ih =>
      have hf := h f (List.mem_cons_self f rest)
      simp [readDatFiles, hf]
      exact ih (fun g hg => h g (List.mem_cons_of_mem f hg))

/-- Witness for C2 (amended): an empty `a.dat` in a singleton directory,
and a directory holding only `x.txt`. -/
theorem empty_file_skipped_witness :
    readDatFiles [("a.dat", ([] : List (List ℝ)))] =
      ((readDatFiles []).1,
       ("无法读取文件 " ++ "a.dat" ++ "，错误：No columns to parse from file") ::
         (readDatFiles []).2) ∧
    readDatFiles [("x.txt", [[(1 : ℝ)]])] = ([], []) :=
  ⟨empty_file_skipped.1 "a.dat" [] (by decide),
   empty_file_skipped.2 [("x.txt", [[(1 : ℝ)]])]
     (by intro f hf; simp at hf; subst hf; decide)⟩

/-- Helper: writing at an address `p` does not change the first `n ≤ p`
cells. -/
lemma take_set_of_le (l : List Table) (p n : Nat) (v : Table) (h : n ≤ p) :
    (l.set p v).take n = l.take n := by
  induction l generalizing p n with
  | nil => simp
  | cons a t ih =>
    cases p with
    | zero =>
      have hn : n = 0 := Nat.le_zero.mp h
      subst hn
      simp
    | succ p =>
      cases n with
      | zero => simp
      | succ n => simp [List.set, List.take, ih p n (Nat.le_of_succ_le_succ h)]

/-- Helper: the in-place clipping loop only writes at address `p`, so the
first `n ≤ p` cells are untouched. -/
lemma clipLoopHeap_take (cols : List String) (h : List Table) (p n : Nat)
    (hn : n ≤ p) : (clipLoopHeap h p cols).take n = h.take n := by
  induction cols generalizing h with
  | nil => rfl
  | cons c cs ih =>
    show (clipLoopHeap (h.set p (clipOneCol ((h[p]?).getD ⟨[]⟩) c)) p cs).take n
      = h.take n
    rw [ih (h.set p (clipOneCol ((h[p]?).getD ⟨[]⟩) c))]
    exact take_set_of_le h p n _ hn

/-- C5: `plot_data` never mutates the stored table. In the store-explicit
model every call — successful or failed — leaves every pre-existing heap
cell exactly as it was: the cleaning touches only the freshly allocated
copy, so the collection's entries read the same afterwards. -/
theorem plot_no_mutation (heap : List Table) (d : List (String × HEntry))
    (k : String) (varsA : VarsArg) (fs : ℝ × ℝ) :
    ((plotDataHeap heap d k varsA fs).1).take heap.length = heap := by
  unfold plotDataHeap
  rcases h : lookupD d k with _ | e
  · simp [List.take_length]
  · cases e with
    | nonTable => simp [List.take_length]
    | ref p =>
      by_cases he : ((heap[p]?).getD ⟨[]⟩).emptyB
      · simp [he, List.take_length]
      · simp only [he, Bool.false_eq_true, if_false]
        rw [clipLoopHeap_take _ _ _ _ (by simp)]
        rw [List.append_assoc]
        exact List.take_left' rfl

/-- Helper: clipping with both thresholds NaN is the identity on a cell. -/
lemma clipVal_none_none : Option.map (clipVal none none) = id := by
  funext o
  cases o <;> rfl

/-- Counterexample for C3 as stated: on the single-value column `[5.0]`
the mean is 5 but the sample standard deviation is NaN, so the clip
thresholds are NaN — not the point `[μ, μ]` the claim asserts. -/
theorem degenerate_sigma_counterexample :
    colMean [some (5 : ℝ)] = some 5 ∧ colStd [some (5 : ℝ)] = none ∧
    bound3 [some (5 : ℝ)] = (none, none) ∧
    bound3 [some (5 : ℝ)] ≠ (some 5, some 5) := by
  have hm : colMean [some (5 : ℝ)] = some 5 := by
    simp [colMean, colVals]
  have hs : colStd [some (5 : ℝ)] = none := by
    simp [colStd, colVals]
  refine ⟨hm, hs, ?_, ?_⟩
  · simp [bound3, hm, hs]
  · simp [bound3, hm, hs]

/-- C3 (amended): in the outlier-clipping step, when σ = 0 the clip
thresholds do degenerate to the single point `[μ, μ]`; when σ is undefined
(fewer than 2 values, pandas `std` is NaN) the thresholds are NaN and the
clipping leaves the column unchanged instead. -/
theorem degenerate_sigma_bounds (c : List (Option ℝ)) :
    (∀ m : ℝ, colMean c = some m → colStd c = some 0 →
      bound3 c = (some m, some m)) ∧
    (colStd c = none → colClip c = c) := by
  constructor
  · intro m hm hs
    simp [bound3, hm, hs]
  · intro hs
    rcases h : colMean c with _ | m
    · simp [colClip, bound3, h, hs, clipVal_none_none]
    · simp [colClip, bound3, h, hs, clipVal_none_none]

/-- Witness for C3 (amended): the constant column `[2, 2]` has σ = 0 and
thresholds `[2, 2]`; the single-value column `[5]` has NaN σ and is left
unchanged by the clipping. -/
theorem degenerate_sigma_bounds_witness :
    bound3 [some (2 : ℝ), some 2] = (some 2, some 2) ∧
    colClip [some (5 : ℝ)] = [some (5 : ℝ)] :=
  ⟨(degenerate_sigma_bounds [some 2, some 2]).1 2
      (by simp [colMean, colVals])
      (by simp [colStd, colVals, colMean]),
   (degenerate_sigma_bounds [some 5]).2 (by simp [colStd, colVals])⟩

/-- Helper: forward fill is the identity on a column with no missing
value, whatever value is being carried. -/
lemma ffillGo_all_some (c : List (Option ℝ)) (h : ∀ v ∈ c, v ≠ none) :
    ∀ last, ffillGo last c = c := by
  induction c with
  | nil => intro last; rfl
  | cons a t ih =>
    intro last
    cases a with
    | none => exact absurd rfl (h none (List.mem_cons_self _ _))
    | some x =>
      simp [ffillGo]
      exact ih (fun v hv => h v (List.mem_cons_of_mem _ hv)) (some x)

/-- Helper: ffill-then-bfill is the identity on a column with no missing
value. -/
lemma fillCol_all_some (c : List (Option ℝ)) (h : ∀ v ∈ c, v ≠ none) :
    fillCol c = c := by
  have hr : ∀ v ∈ c.reverse, v ≠ none := fun v hv => h v (List.mem_reverse.mp hv)
  unfold fillCol bfillCol ffillCol
  rw [ffillGo_all_some c h none, ffillGo_all_some c.reverse hr none,
    List.reverse_reverse]

/-- Helper: a defined standard deviation forces a defined mean. -/
lemma colStd_mean (c : List (Option ℝ)) (s : ℝ) (hs : colStd c = some s) :
    ∃ m, colMean c = some m := by
  unfold colStd at hs
  by_cases hlen : (colVals c).length < 2
  · simp [hlen] at hs
  · simp only [hlen, if_false] at hs
    rcases h : colMean c with _ | m
    · rw [h] at hs; simp at hs
    · exact ⟨m, rfl⟩

/-- Helper: clipping is the identity on a column in which no valid value
lies more than 3σ from the mean (vacuously including columns whose σ is
NaN, where the thresholds are NaN and nothing is clipped). -/
lemma colClip_within (c : List (Option ℝ))
    (hin : ∀ m s : ℝ, colMean c = some m → colStd c = some s →
      ∀ x ∈ colVals c, |x - m| ≤ 3 * s) :
    colClip c = c := by
  rcases hstd : colStd c with _ | s
  · rcases hm : colMean c with _ | m
    · simp [colClip, bound3, hm, hstd, clipVal_none_none]
    · simp [colClip, bound3, hm, hstd, clipVal_none_none]
  · obtain ⟨m, hm⟩ := colStd_mean c s hstd
    unfold colClip bound3
    rw [hm, hstd]
    conv_rhs => rw [← List.map_id c]
    apply List.map_congr_left
    intro a ha
    cases a with
    | none => rfl
    | some x =>
      have hx : x ∈ colVals c := List.mem_filterMap.mpr ⟨some x, ha, rfl⟩
      have hb := hin m s hm hstd x hx
      have h1 : m - 3 * s ≤ x := by
        have := abs_le.mp hb
        linarith [this.1]
      have h2 : x ≤ m + 3 * s := by
        have := abs_le.mp hb
        linarith [this.2]
      simp [clipVal, max_eq_right h1, min_eq_right h2]

/-- C4: the cleaning step is idempotent on a table with no missing values
and no value lying more than 3 sample standard deviations from its column
mean: the cleaned output equals the input. -/
theorem cleaning_idempotent (t : Table)
    (hfull : ∀ nc ∈ t.columns, ∀ v ∈ nc.2, v ≠ none)
    (hin : ∀ nc ∈ t.columns, ∀ m s : ℝ, colMean nc.2 = some m →
      colStd nc.2 = some s → ∀ x ∈ colVals nc.2, |x - m| ≤ 3 * s) :
    cleanTable t = t := by
  unfold cleanTable
  have heach : t.columns.map (fun nc => (nc.1, cleanCol nc.2)) = t.columns := by
    conv_rhs => rw [← List.map_id t.columns]
    apply List.map_congr_left
    intro nc hnc
    have hfill := fillCol_all_some nc.2 (hfull nc hnc)
    have hclip := colClip_within nc.2 (hin nc hnc)
    simp [cleanCol, hfill, hclip]
  rw [heach]

/-- Witness for C4 on the one-column table `[2, 2]`: no missing value, all
values at distance 0 ≤ 3σ from the mean, and the cleaning returns it
unchanged. -/
theorem cleaning_idempotent_witness :
    cleanTable ⟨[("var1", [some (2 : ℝ), some 2])]⟩ =
      ⟨[("var1", [some (2 : ℝ), some 2])]⟩ :=
  cleaning_idempotent ⟨[("var1", [some (2 : ℝ), some 2])]⟩
    (by
      intro nc hnc v hv
      simp at hnc
      subst hnc
      simp at hv
      subst hv
      simp)
    (by
      intro nc hnc m s hm hs x hx
      simp at hnc
      subst hnc
      have hm2 : colMean [some (2 : ℝ), some 2] = some 2 := by
        simp [colMean, colVals]
      have hs0 : colStd [some (2 : ℝ), some 2] = some 0 := by
        simp [colStd, colVals, colMean]
      rw [hm2] at hm
      rw [hs0] at hs
      injection hm with hm
      injection hs with hs
      subst hm
      subst hs
      simp [colVals] at hx
      subst hx
      norm_num)

/-- Helper: the cleaning preserves the column names. -/
lemma names_cleanTable (t : Table) : (cleanTable t).names = t.names := by
  simp [cleanTable, Table.names, List.map_map]

/-- Helper: the cleaning preserves column membership. -/
lemma hasCol_cleanTable (t : Table) (v : String) :
    (cleanTable t).hasCol v = t.hasCol v := by
  simp [Table.hasCol, names_cleanTable]

/-- C1: every observable outcome of `plot_data` — messages printed and
chart shown or withheld — coincides with that of the spec-ordered variant
in which all three validation steps (mapping/string/key, non-empty table,
column filtering with warnings and the no-valid-column abort) run in order
before the cleaning step, each failure reporting its condition with no
chart drawn. The code performs step 3 on the cleaned copy, but cleaning
preserves the column names, so the two orders are indistinguishable. -/
theorem plot_validations_before_cleaning (dd : DictArg) (fn : KeyArg)
    (varsA : VarsArg) (fs : ℝ × ℝ) :
    plotData dd fn varsA fs = plotDataSpecOrder dd fn varsA fs := by
  cases dd with
  | nonDict => rfl
  | dict d =>
    cases fn with
    | nonStr => rfl
    | str k =>
      rcases h : lookupD d k with _ | e
      · simp [plotData, plotDataSpecOrder, plotBody, plotBodySpecOrder, h]
      · cases e with
        | nonTable =>
          simp [plotData, plotDataSpecOrder, plotBody, plotBodySpecOrder, h]
        | table t =>
          by_cases he : t.emptyB
          · simp [plotData, plotDataSpecOrder, plotBody, plotBodySpecOrder, h, he]
          · simp [plotData, plotDataSpecOrder, plotBody, plotBodySpecOrder, h, he,
              names_cleanTable, hasCol_cleanTable]
